import Mathlib

/-!
Verification of the STEMI-detection single-page application.

The source is a React component using TensorFlow.js.  The numeric pipeline
(pixel extraction, nearest-neighbor resize, normalization, CNN forward pass
with a final two-unit softmax) is embedded below over exact rationals; the
component's state transitions (model loading, image upload, analysis with
its success and failure paths) are embedded as pure state-transition
functions; the backend tensor lifecycle (allocation and disposal) is
embedded as a small heap of tensor identifiers.
-/

/-- A backend tensor: a shape together with an entry function indexed by a
list of coordinates (indices outside the shape are irrelevant padding). -/
structure Tensor where
  shape : List ℕ
  entry : List ℕ → ℚ

/-- A decoded image: dimensions plus a pixel function giving the uint8
channel value at row, column, channel (values are in 0..255 for a valid
decoded image; channels 0,1,2 are R,G,B). -/
structure Image where
  height : ℕ
  width : ℕ
  pixel : ℕ → ℕ → ℕ → ℕ

/-- Embedding of tf.browser.fromPixels: a rank-3 int tensor of shape
(height, width, 3) holding the pixel channel values. -/
def fromPixels (img : Image) : Tensor :=
  ⟨[img.height, img.width, 3], fun idx =>
    match idx with
    | [r, c, ch] => (img.pixel r c ch : ℚ)
    | _ => 0⟩

/-- Embedding of resizeNearestNeighbor([newHeight, newWidth]) with the
default alignCorners = false: the source row for output row r is
min(oldHeight - 1, floor(r * oldHeight / newHeight)), and likewise for
columns (the TensorFlow.js CPU kernel's index computation, with the
floating-point ratio replaced by the exact rational it approximates). -/
def resizeNearestNeighbor (t : Tensor) (newHeight newWidth : ℕ) : Tensor :=
  match t with
  | ⟨[h, w, c], f⟩ =>
    ⟨[newHeight, newWidth, c], fun idx =>
      match idx with
      | [r, cc, ch] => f [min (h - 1) (r * h / newHeight),
                          min (w - 1) (cc * w / newWidth), ch]
      | _ => 0⟩
  | other => other

/-- Embedding of toFloat (cast int32 to float32): the rational carrier
already contains the integer values exactly, so the cast is the identity
on the modelled values. -/
def toFloatOp (t : Tensor) : Tensor := t

/-- Embedding of div by a scalar: pointwise division of every entry. -/
def divScalar (t : Tensor) (d : ℚ) : Tensor :=
  ⟨t.shape, fun idx => t.entry idx / d⟩

/-- Embedding of expandDims(0): prepend a batch dimension of size 1. -/
def expandDims0 (t : Tensor) : Tensor :=
  ⟨1 :: t.shape, fun idx =>
    match idx with
    | [] => 0
    | b :: rest => if b = 0 then t.entry rest else 0⟩

/-- Embedding of preprocessImage: the chained pipeline
fromPixels → resizeNearestNeighbor([224,224]) → toFloat → div(255.0)
→ expandDims(0) from the source. -/
def preprocessImage (img : Image) : Tensor :=
  expandDims0 (divScalar (toFloatOp (resizeNearestNeighbor (fromPixels img) 224 224)) 255)

/-- The all-zero 512x512 RGB image of the first preprocessing scenario. -/
def zeroEcgImage : Image := ⟨512, 512, fun _ _ _ => 0⟩

/-- The all-255 100x50 RGB image (width 100, height 50) of the second
preprocessing scenario. -/
def whiteEcgImage : Image := ⟨50, 100, fun _ _ _ => 255⟩

/-- A small concrete image used to instantiate universally quantified
theorems: 3x2 pixels, every channel value 100. -/
def smallTestImage : Image := ⟨3, 2, fun _ _ _ => 100⟩

/-- C1: preprocess returns a tensor of shape (1,224,224,3) whose every
value is the nearest-neighbor-resized pixel value divided by 255, and
every value lies in [0,1]. -/
theorem preprocessImage_spec (img : Image) (_hh : 0 < img.height) (_hw : 0 < img.width)
    (hpix : ∀ r c ch, img.pixel r c ch ≤ 255) :
    (preprocessImage img).shape = [1, 224, 224, 3] ∧
    ∀ r c ch : ℕ, r < 224 → c < 224 → ch < 3 →
      (preprocessImage img).entry [0, r, c, ch] =
        (img.pixel (min (img.height - 1) (r * img.height / 224))
                   (min (img.width - 1) (c * img.width / 224)) ch : ℚ) / 255 ∧
      0 ≤ (preprocessImage img).entry [0, r, c, ch] ∧
      (preprocessImage img).entry [0, r, c, ch] ≤ 1 := by
  refine ⟨rfl, ?_⟩
  intro r c ch _ _ _
  have hval : (preprocessImage img).entry [0, r, c, ch] =
      (img.pixel (min (img.height - 1) (r * img.height / 224))
                 (min (img.width - 1) (c * img.width / 224)) ch : ℚ) / 255 := rfl
  refine ⟨hval, ?_, ?_⟩
  · rw [hval]
    exact div_nonneg (Nat.cast_nonneg _) (by norm_num)
  · rw [hval]
    rw [div_le_one (by norm_num)]
    exact_mod_cast hpix _ _ _

/-- Witness for C1 at the concrete 3x2 image with constant pixel value
100. -/
theorem preprocessImage_spec_witness :
    (preprocessImage smallTestImage).shape = [1, 224, 224, 3] ∧
    0 ≤ (preprocessImage smallTestImage).entry [0, 5, 7, 1] ∧
    (preprocessImage smallTestImage).entry [0, 5, 7, 1] ≤ 1 := by
  have h := preprocessImage_spec smallTestImage (by decide) (by decide)
    (fun _ _ _ => by show (100 : ℕ) ≤ 255; decide)
  exact ⟨h.1, (h.2 5 7 1 (by norm_num) (by norm_num) (by norm_num)).2⟩

/-- C9: the all-zero 512x512 image preprocesses to the all-zero
(1,224,224,3) tensor, and the all-255 100x50 image preprocesses to the
all-one (1,224,224,3) tensor. -/
theorem preprocess_const_scenarios :
    ((preprocessImage zeroEcgImage).shape = [1, 224, 224, 3] ∧
      ∀ (r : Fin 224) (c : Fin 224) (ch : Fin 3),
        (preprocessImage zeroEcgImage).entry [0, r.val, c.val, ch.val] = 0) ∧
    ((preprocessImage whiteEcgImage).shape = [1, 224, 224, 3] ∧
      ∀ (r : Fin 224) (c : Fin 224) (ch : Fin 3),
        (preprocessImage whiteEcgImage).entry [0, r.val, c.val, ch.val] = 1) := by
  refine ⟨⟨rfl, ?_⟩, ⟨rfl, ?_⟩⟩
  · intro r c ch
    show ((0 : ℕ) : ℚ) / 255 = 0
    norm_num
  · intro r c ch
    show ((255 : ℕ) : ℚ) / 255 = 1
    norm_num

/-- The ReLU activation: max(0, x). -/
def reluQ (x : ℚ) : ℚ := max 0 x

/-- Truncated Taylor series of the exponential (eight terms), used on
nonnegative arguments where every term is nonnegative. -/
def expTaylor (x : ℚ) : ℚ :=
  ∑ k ∈ Finset.range 8, x ^ k / (Nat.factorial k : ℚ)

/-- Rational stand-in for the backend's floating-point exp, used by the
softmax activation.  Only its strict positivity matters for the softmax
normalization properties proved below; on negative arguments it is the
reciprocal of the series at the negated argument, which keeps it
positive everywhere. -/
def expQ (x : ℚ) : ℚ :=
  if 0 ≤ x then expTaylor x else 1 / expTaylor (-x)

/-- Output length of a valid-padding convolution or pooling window, the
library's convOutputLength utility: floor((inLen - kernel) / stride) + 1. -/
def convOutputLength (inLen kernel stride : ℕ) : ℕ :=
  (inLen - kernel) / stride + 1

/-- Embedding of tf.layers.conv2d with kernel size ks, the given filter
count, stride 1, valid padding, bias, and ReLU activation, as configured
in the source.  The kernel is indexed (dRow, dCol, inChannel, filter). -/
def conv2dLayer (K : ℕ → ℕ → ℕ → ℕ → ℚ) (B : ℕ → ℚ) (ks filters : ℕ)
    (t : Tensor) : Tensor :=
  match t with
  | ⟨[b, h, w, c], f⟩ =>
    ⟨[b, convOutputLength h ks 1, convOutputLength w ks 1, filters], fun idx =>
      match idx with
      | [bi, i, j, fl] =>
        reluQ (B fl + ∑ di ∈ Finset.range ks, ∑ dj ∈ Finset.range ks,
          ∑ ch ∈ Finset.range c, f [bi, i + di, j + dj, ch] * K di dj ch fl)
      | _ => 0⟩
  | other => other

/-- Maximum of f over 0..n-1 (0 when n = 0); helper for max pooling and
for the row maximum subtracted inside softmax. -/
def foldMax (f : ℕ → ℚ) : ℕ → ℚ
  | 0 => 0
  | 1 => f 0
  | n + 2 => max (f (n + 1)) (foldMax f (n + 1))

/-- Embedding of tf.layers.maxPooling2d with the given pool size, default
strides equal to the pool size and valid padding: each output entry is
the maximum of a p-by-p window. -/
def maxPooling2dLayer (p : ℕ) (t : Tensor) : Tensor :=
  match t with
  | ⟨[b, h, w, c], f⟩ =>
    ⟨[b, convOutputLength h p p, convOutputLength w p p, c], fun idx =>
      match idx with
      | [bi, i, j, ch] =>
        foldMax (fun k => f [bi, p * i + k / p, p * j + k % p, ch]) (p * p)
      | _ => 0⟩
  | other => other

/-- Embedding of tf.layers.flatten: collapse everything but the batch
dimension into one axis in row-major order. -/
def flattenLayer (t : Tensor) : Tensor :=
  match t with
  | ⟨[b, h, w, c], f⟩ =>
    ⟨[b, h * w * c], fun idx =>
      match idx with
      | [bi, k] => f [bi, k / (w * c), k / c % w, k % c]
      | _ => 0⟩
  | other => other

/-- Embedding of tf.layers.dropout: in training mode each entry is
multiplied by the 0/1 keep indicator drawn from the backend RNG and
rescaled by 1/(1-rate); in inference mode, as invoked by model.predict,
the layer is the identity. -/
def dropoutLayer (rate : ℚ) (training : Bool) (mask : List ℕ → ℚ)
    (t : Tensor) : Tensor :=
  if training then ⟨t.shape, fun idx => t.entry idx * mask idx / (1 - rate)⟩ else t

/-- Activation kinds used by the dense layers of the source model. -/
inductive ActivationKind
  | relu
  | softmax

/-- Embedding of tf.layers.dense with the given unit count and activation.
The weight matrix is indexed (inputIndex, unit).  The softmax activation
subtracts the row maximum before exponentiating and normalizing, as the
backend softmax kernel does. -/
def denseLayer (W : ℕ → ℕ → ℚ) (B : ℕ → ℚ) (units : ℕ) (act : ActivationKind)
    (t : Tensor) : Tensor :=
  match t with
  | ⟨[bs, n], f⟩ =>
    match act with
    | .relu =>
      ⟨[bs, units], fun idx =>
        match idx with
        | [bi, u] => reluQ (B u + ∑ k ∈ Finset.range n, f [bi, k] * W k u)
        | _ => 0⟩
    | .softmax =>
      ⟨[bs, units], fun idx =>
        match idx with
        | [bi, u] =>
          expQ (B u + (∑ k ∈ Finset.range n, f [bi, k] * W k u)
              - foldMax (fun v => B v + ∑ k ∈ Finset.range n, f [bi, k] * W k v) units)
            / ∑ v ∈ Finset.range units,
                expQ (B v + (∑ k ∈ Finset.range n, f [bi, k] * W k v)
                  - foldMax (fun v2 => B v2 + ∑ k ∈ Finset.range n, f [bi, k] * W k v2) units)
        | _ => 0⟩
  | other => other

/-- The weights of the sequential model built by loadModel: three
convolution stages, then two dense stages.  No weights are ever loaded,
so they are arbitrary (the library's random initialization). -/
structure ModelWeights where
  conv1K : ℕ → ℕ → ℕ → ℕ → ℚ
  conv1B : ℕ → ℚ
  conv2K : ℕ → ℕ → ℕ → ℕ → ℚ
  conv2B : ℕ → ℚ
  conv3K : ℕ → ℕ → ℕ → ℕ → ℚ
  conv3B : ℕ → ℚ
  dense1W : ℕ → ℕ → ℚ
  dense1B : ℕ → ℚ
  dense2W : ℕ → ℕ → ℚ
  dense2B : ℕ → ℚ

/-- The forward pass of the sequential model from loadModel, layer by
layer: conv 32/3x3/relu, pool 2, conv 64/3x3/relu, pool 2, conv
128/3x3/relu, pool 2, flatten, dropout 0.5, dense 128 relu, dropout 0.3,
dense 2 softmax.  The two mask arguments model the backend RNG the
dropout layers would consume in training mode. -/
def forwardPass (m : ModelWeights) (training : Bool)
    (mask1 mask2 : List ℕ → ℚ) (t : Tensor) : Tensor :=
  denseLayer m.dense2W m.dense2B 2 .softmax
    (dropoutLayer (3 / 10) training mask2
      (denseLayer m.dense1W m.dense1B 128 .relu
        (dropoutLayer (1 / 2) training mask1
          (flattenLayer
            (maxPooling2dLayer 2
              (conv2dLayer m.conv3K m.conv3B 3 128
                (maxPooling2dLayer 2
                  (conv2dLayer m.conv2K m.conv2B 3 64
                    (maxPooling2dLayer 2
                      (conv2dLayer m.conv1K m.conv1B 3 32 t))))))))))

/-- Embedding of model.predict: one forward pass in inference mode
(training = false).  The mask arguments model the ambient backend RNG
state at the moment of the call. -/
def predict (m : ModelWeights) (mask1 mask2 : List ℕ → ℚ) (t : Tensor) : Tensor :=
  forwardPass m false mask1 mask2 t

/-- The pre-softmax logit of output unit u of a dense layer on a
single-row input: bias plus the weighted sum of the row entries. -/
def denseLogit (W : ℕ → ℕ → ℚ) (B : ℕ → ℚ) (n : ℕ) (f : List ℕ → ℚ) (u : ℕ) : ℚ :=
  B u + ∑ k ∈ Finset.range n, f [0, k] * W k u

/-- The truncated exponential series is at least 1 on nonnegative
arguments, since the k = 0 term is 1 and all terms are nonnegative. -/
lemma expTaylor_pos_of_nonneg (x : ℚ) (hx : 0 ≤ x) : 0 < expTaylor x := by
  unfold expTaylor
  rw [Finset.sum_range_succ']
  have h1 : (0 : ℚ) ≤ ∑ i ∈ Finset.range 7, x ^ (i + 1) / (Nat.factorial (i + 1) : ℚ) := by
    apply Finset.sum_nonneg
    intro i _
    exact div_nonneg (pow_nonneg hx _) (Nat.cast_nonneg _)
  have h0 : x ^ 0 / (Nat.factorial 0 : ℚ) = 1 := by norm_num
  rw [h0]
  linarith

/-- The rational exponential stand-in is strictly positive everywhere. -/
lemma expQ_pos (x : ℚ) : 0 < expQ x := by
  unfold expQ
  split
  · exact expTaylor_pos_of_nonneg x (by assumption)
  · exact one_div_pos.mpr (expTaylor_pos_of_nonneg (-x) (by linarith [lt_of_not_le (by assumption : ¬ 0 ≤ x)]))

/-- Normalization facts about a two-way softmax fraction with positive
numerators. -/
lemma softmax_frac_props (a b : ℚ) (ha : 0 < a) (hb : 0 < b) :
    0 ≤ a / (a + b) ∧ a / (a + b) ≤ 1 ∧ a / (a + b) + b / (a + b) = 1 := by
  have hab : 0 < a + b := by linarith
  refine ⟨le_of_lt (div_pos ha hab), ?_, ?_⟩
  · rw [div_le_one hab]
    linarith
  · field_simp

/-- The final dense layer with two units and softmax activation maps any
single-row input to a pair of values in [0,1] summing exactly to 1. -/
lemma denseLayer_softmax_two (W : ℕ → ℕ → ℚ) (B : ℕ → ℚ) (n : ℕ) (f : List ℕ → ℚ) :
    (denseLayer W B 2 .softmax ⟨[1, n], f⟩).shape = [1, 2] ∧
    0 ≤ (denseLayer W B 2 .softmax ⟨[1, n], f⟩).entry [0, 0] ∧
    (denseLayer W B 2 .softmax ⟨[1, n], f⟩).entry [0, 0] ≤ 1 ∧
    0 ≤ (denseLayer W B 2 .softmax ⟨[1, n], f⟩).entry [0, 1] ∧
    (denseLayer W B 2 .softmax ⟨[1, n], f⟩).entry [0, 1] ≤ 1 ∧
    (denseLayer W B 2 .softmax ⟨[1, n], f⟩).entry [0, 0] +
      (denseLayer W B 2 .softmax ⟨[1, n], f⟩).entry [0, 1] = 1 := by
  have hsum : (∑ v ∈ Finset.range 2,
        expQ (denseLogit W B n f v - foldMax (denseLogit W B n f) 2)) =
      expQ (denseLogit W B n f 0 - foldMax (denseLogit W B n f) 2) +
        expQ (denseLogit W B n f 1 - foldMax (denseLogit W B n f) 2) := by
    rw [Finset.sum_range_succ, Finset.sum_range_one]
  have h00 : (denseLayer W B 2 .softmax ⟨[1, n], f⟩).entry [0, 0] =
      expQ (denseLogit W B n f 0 - foldMax (denseLogit W B n f) 2) /
        (expQ (denseLogit W B n f 0 - foldMax (denseLogit W B n f) 2) +
          expQ (denseLogit W B n f 1 - foldMax (denseLogit W B n f) 2)) := by
    rw [← hsum]
    rfl
  have h01 : (denseLayer W B 2 .softmax ⟨[1, n], f⟩).entry [0, 1] =
      expQ (denseLogit W B n f 1 - foldMax (denseLogit W B n f) 2) /
        (expQ (denseLogit W B n f 0 - foldMax (denseLogit W B n f) 2) +
          expQ (denseLogit W B n f 1 - foldMax (denseLogit W B n f) 2)) := by
    rw [← hsum]
    rfl
  obtain ⟨hnn, hle, hs⟩ := softmax_frac_props
    (expQ (denseLogit W B n f 0 - foldMax (denseLogit W B n f) 2))
    (expQ (denseLogit W B n f 1 - foldMax (denseLogit W B n f) 2))
    (expQ_pos _) (expQ_pos _)
  obtain ⟨hnn1, hle1, _⟩ := softmax_frac_props
    (expQ (denseLogit W B n f 1 - foldMax (denseLogit W B n f) 2))
    (expQ (denseLogit W B n f 0 - foldMax (denseLogit W B n f) 2))
    (expQ_pos _) (expQ_pos _)
  rw [h00, h01]
  refine ⟨rfl, hnn, hle, ?_, ?_, hs⟩
  · rw [add_comm (expQ (denseLogit W B n f 0 - foldMax (denseLogit W B n f) 2))]
    exact hnn1
  · rw [add_comm (expQ (denseLogit W B n f 0 - foldMax (denseLogit W B n f) 2))]
    exact hle1

set_option maxRecDepth 10000 in
/-- C2: on any input of shape (1,224,224,3) and for any model weights,
predict returns a tensor of shape (1,2) whose two values each lie in
[0,1] and sum exactly to 1 (hence within floating-point tolerance of 1). -/
theorem predict_softmax_props (m : ModelWeights) (mask1 mask2 : List ℕ → ℚ)
    (t : Tensor) (ht : t.shape = [1, 224, 224, 3]) :
    (predict m mask1 mask2 t).shape = [1, 2] ∧
    0 ≤ (predict m mask1 mask2 t).entry [0, 0] ∧
    (predict m mask1 mask2 t).entry [0, 0] ≤ 1 ∧
    0 ≤ (predict m mask1 mask2 t).entry [0, 1] ∧
    (predict m mask1 mask2 t).entry [0, 1] ≤ 1 ∧
    (predict m mask1 mask2 t).entry [0, 0] + (predict m mask1 mask2 t).entry [0, 1] = 1 := by
  obtain ⟨sh, f⟩ := t
  have hsh : sh = [1, 224, 224, 3] := ht
  subst hsh
  exact denseLayer_softmax_two m.dense2W m.dense2B 128
    (Tensor.entry (dropoutLayer (3 / 10) false mask2
      (denseLayer m.dense1W m.dense1B 128 .relu
        (dropoutLayer (1 / 2) false mask1
          (flattenLayer
            (maxPooling2dLayer 2
              (conv2dLayer m.conv3K m.conv3B 3 128
                (maxPooling2dLayer 2
                  (conv2dLayer m.conv2K m.conv2B 3 64
                    (maxPooling2dLayer 2
                      (conv2dLayer m.conv1K m.conv1B 3 32 ⟨[1, 224, 224, 3], f⟩)))))))))))

/-- The all-zero model weights, a concrete inhabitant of ModelWeights. -/
def zeroWeights : ModelWeights :=
  ⟨fun _ _ _ _ => 0, fun _ => 0, fun _ _ _ _ => 0, fun _ => 0,
   fun _ _ _ _ => 0, fun _ => 0, fun _ _ => 0, fun _ => 0, fun _ _ => 0, fun _ => 0⟩

/-- The all-zero input tensor of shape (1,224,224,3). -/
def zeroInputTensor : Tensor := ⟨[1, 224, 224, 3], fun _ => 0⟩

/-- Witness for C2 at the zero-initialized model, zero RNG masks, and the
all-zero (1,224,224,3) input. -/
theorem predict_softmax_props_witness :
    (predict zeroWeights (fun _ => 0) (fun _ => 0) zeroInputTensor).shape = [1, 2] ∧
    0 ≤ (predict zeroWeights (fun _ => 0) (fun _ => 0) zeroInputTensor).entry [0, 0] ∧
    (predict zeroWeights (fun _ => 0) (fun _ => 0) zeroInputTensor).entry [0, 0] ≤ 1 ∧
    0 ≤ (predict zeroWeights (fun _ => 0) (fun _ => 0) zeroInputTensor).entry [0, 1] ∧
    (predict zeroWeights (fun _ => 0) (fun _ => 0) zeroInputTensor).entry [0, 1] ≤ 1 ∧
    (predict zeroWeights (fun _ => 0) (fun _ => 0) zeroInputTensor).entry [0, 0] +
      (predict zeroWeights (fun _ => 0) (fun _ => 0) zeroInputTensor).entry [0, 1] = 1 :=
  predict_softmax_props zeroWeights (fun _ => 0) (fun _ => 0) zeroInputTensor rfl

/-- C3: predict is a pure function of the model weights and the input
tensor; in particular it does not read the backend RNG (the only hidden
mutable state the dropout layers could consume), so two calls with the
same model instance and the same tensor, under arbitrarily different
ambient RNG states, return identical output. -/
theorem predict_rng_independent (m : ModelWeights)
    (mask1 mask2 mask1' mask2' : List ℕ → ℚ) (t : Tensor) :
    predict m mask1 mask2 t = predict m mask1' mask2' t := rfl

/-- Activation names appearing in the layer configuration of loadModel. -/
inductive ActivationName
  | relu
  | softmax
deriving DecidableEq

/-- One layer configuration entry, mirroring the tf.layers calls and
their argument objects in loadModel. -/
inductive LayerConfig
  | conv2d (inputShape : Option (List ℕ)) (kernelSize : ℕ) (filters : ℕ)
      (activation : ActivationName)
  | maxPooling2d (poolSize : ℕ)
  | flatten
  | dropout (rate : ℚ)
  | dense (units : ℕ) (activation : ActivationName)
deriving DecidableEq

/-- Optimizer names used by the compile call. -/
inductive OptimizerName
  | adam
deriving DecidableEq

/-- Loss names used by the compile call. -/
inductive LossName
  | categoricalCrossentropy
deriving DecidableEq

/-- Metric names used by the compile call. -/
inductive MetricName
  | accuracy
deriving DecidableEq

/-- The compile configuration: optimizer with its learning rate, loss,
and tracked metrics. -/
structure CompileConfig where
  optimizer : OptimizerName
  learningRate : ℚ
  loss : LossName
  metrics : List MetricName
deriving DecidableEq

/-- A compiled model object: its layer graph plus its compile
configuration (the weights live separately in ModelWeights). -/
structure CompiledModelConfig where
  layers : List LayerConfig
  compile : CompileConfig
deriving DecidableEq

/-- The model built by loadModel: the tf.sequential layer list and the
model.compile arguments, transcribed from the source. -/
def buildModel : CompiledModelConfig :=
  { layers :=
      [ .conv2d (some [224, 224, 3]) 3 32 .relu
      , .maxPooling2d 2
      , .conv2d none 3 64 .relu
      , .maxPooling2d 2
      , .conv2d none 3 128 .relu
      , .maxPooling2d 2
      , .flatten
      , .dropout (1 / 2)
      , .dense 128 .relu
      , .dropout (3 / 10)
      , .dense 2 .softmax ]
  , compile :=
      { optimizer := .adam
      , learningRate := 1 / 1000
      , loss := .categoricalCrossentropy
      , metrics := [.accuracy] } }

/-- The architecture as enumerated by the specification text of C4,
written independently of the source transcription so the two can be
compared: Conv2D 32 filters 3x3 ReLU with input shape (224,224,3);
MaxPool 2x2; Conv2D 64 filters 3x3 ReLU; MaxPool 2x2; Conv2D 128
filters 3x3 ReLU; MaxPool 2x2; Flatten; Dropout 0.5; Dense 128 ReLU;
Dropout 0.3; Dense 2 softmax; Adam at learning rate 0.001, categorical
cross-entropy loss, accuracy metric. -/
def specClaimedModel : CompiledModelConfig :=
  { layers :=
      [ .conv2d (some [224, 224, 3]) 3 32 .relu
      , .maxPooling2d 2
      , .conv2d none 3 64 .relu
      , .maxPooling2d 2
      , .conv2d none 3 128 .relu
      , .maxPooling2d 2
      , .flatten
      , .dropout (5 / 10)
      , .dense 128 .relu
      , .dropout (3 / 10)
      , .dense 2 .softmax ]
  , compile :=
      { optimizer := .adam
      , learningRate := 1 / 1000
      , loss := .categoricalCrossentropy
      , metrics := [.accuracy] } }

/-- C4: the compiled model built by loadModel has exactly the layer
graph and compile configuration the specification enumerates. -/
theorem buildModel_architecture : buildModel = specClaimedModel := by
  have h : (1 : ℚ) / 2 = 5 / 10 := by norm_num
  unfold buildModel specClaimedModel
  rw [h]

/-- The simulated ECG feature block, built from four Math.random draws:
stElevation when the first draw exceeds 0.5, qWaveChanges when the
second exceeds 0.6, tWaveInversion when the third exceeds 0.7, and a
heart rate of floor(fourth * 60) + 60. -/
structure Features where
  stElevation : Bool
  qWaveChanges : Bool
  tWaveInversion : Bool
  heartRate : ℕ

/-- Embedding of the features object of analyzeECG, with the four
Math.random results passed in as rational parameters in [0,1). -/
def mkFeatures (r1 r2 r3 rHr : ℚ) : Features :=
  { stElevation := decide ((1 : ℚ) / 2 < r1)
  , qWaveChanges := decide ((3 : ℚ) / 5 < r2)
  , tWaveInversion := decide ((7 : ℚ) / 10 < r3)
  , heartRate := (⌊rHr * 60⌋).toNat + 60 }

/-- The analysis result object rendered by the page. -/
structure AnalysisResult where
  stemiDetected : Bool
  confidence : ℚ
  stemiProbability : ℚ
  noStemiProbability : ℚ
  features : Features
  recommendation : String

/-- Embedding of the result object of analyzeECG: p0 is predArray[0]
(class 0, no STEMI) and p1 is predArray[1] (class 1, STEMI). -/
def mkResult (p0 p1 : ℚ) (f : Features) : AnalysisResult :=
  { stemiDetected := decide ((1 : ℚ) / 2 < p1)
  , confidence := max p1 p0 * 100
  , stemiProbability := p1 * 100
  , noStemiProbability := p0 * 100
  , features := f
  , recommendation :=
      if (1 : ℚ) / 2 < p1 then
        "URGENT: Possible STEMI detected. Immediate medical attention required. Activate catheterization lab."
      else
        "No STEMI detected. Continue monitoring and clinical assessment." }

/-- C10: the rendered result flags STEMI exactly when the class-1
probability strictly exceeds 0.5, and its confidence is 100 times the
larger of the two class probabilities. -/
theorem mkResult_flag_confidence (p0 p1 : ℚ) (f : Features) :
    ((mkResult p0 p1 f).stemiDetected = true ↔ (1 : ℚ) / 2 < p1) ∧
    (mkResult p0 p1 f).confidence = 100 * max p0 p1 := by
  constructor
  · simp [mkResult]
  · show max p1 p0 * 100 = 100 * max p0 p1
    rw [max_comm, mul_comm]

/-- The user-visible component state of Home: the five useState hooks,
plus counters for the user-facing alert dialogs and the developer
console errors emitted so far. -/
structure UIState where
  model : Option ModelWeights
  imagePreview : Option Image
  prediction : Option AnalysisResult
  loading : Bool
  modelLoading : Bool
  alerts : ℕ
  consoleErrors : ℕ

/-- The initial component state on mount: no model, no preview, no
prediction, not loading, model loading in progress. -/
def initState : UIState :=
  { model := none
  , imagePreview := none
  , prediction := none
  , loading := false
  , modelLoading := true
  , alerts := 0
  , consoleErrors := 0 }

/-- Embedding of loadModel run to completion: on success the built model
is stored and modelLoading cleared; on failure the error is logged to
the console and modelLoading cleared, with the model left untouched and
no user-facing notification. -/
def loadModelStep (outcome : Except Unit ModelWeights) (s : UIState) : UIState :=
  match outcome with
  | .ok m => { s with model := some m, modelLoading := false }
  | .error _ => { s with consoleErrors := s.consoleErrors + 1, modelLoading := false }

/-- Embedding of handleImageUpload run to completion: when a file is
selected, the decoded preview is stored and the prediction cleared. -/
def handleImageUploadStep (file : Option Image) (s : UIState) : UIState :=
  match file with
  | none => s
  | some img => { s with imagePreview := some img, prediction := none }

/-- The outcome of one analysis attempt: either the two probabilities
read out of the prediction tensor, or a thrown InferenceError somewhere
in preprocessing, the forward pass, or the data readout. -/
inductive InferenceOutcome
  | ok (p0 p1 : ℚ)
  | fail

/-- Embedding of analyzeECG run to completion: the early return when no
preview or no model is present; on success the result object is stored;
on failure the error is logged, the user is alerted, and no state other
than loading is touched; the finally block clears loading on both
paths.  The four rational arguments are the Math.random draws for the
simulated features. -/
def analyzeECGStep (o : InferenceOutcome) (r1 r2 r3 rHr : ℚ) (s : UIState) : UIState :=
  if s.imagePreview.isNone || s.model.isNone then s
  else
    match o with
    | .ok p0 p1 =>
      { s with prediction := some (mkResult p0 p1 (mkFeatures r1 r2 r3 rHr))
             , loading := false }
    | .fail =>
      { s with consoleErrors := s.consoleErrors + 1
             , alerts := s.alerts + 1
             , loading := false }

/-- A user-driven event after mount: an image upload or an analysis
attempt.  loadModel is not an event because the effect hook with an
empty dependency list runs it exactly once, at mount. -/
inductive UIEvent
  | upload (file : Option Image)
  | analyze (o : InferenceOutcome) (r1 r2 r3 rHr : ℚ)

/-- One user-driven state transition. -/
def uiStep (e : UIEvent) (s : UIState) : UIState :=
  match e with
  | .upload file => handleImageUploadStep file s
  | .analyze o r1 r2 r3 rHr => analyzeECGStep o r1 r2 r3 rHr s

/-- A whole session: mount, the single loadModel run of the effect hook,
then any sequence of user events. -/
def session (load : Except Unit ModelWeights) (events : List UIEvent) : UIState :=
  events.foldl (fun s e => uiStep e s) (loadModelStep load initState)

/-- No user-driven transition touches the model field. -/
lemma uiStep_model (e : UIEvent) (s : UIState) : (uiStep e s).model = s.model := by
  cases e with
  | upload file => cases file <;> rfl
  | analyze o r1 r2 r3 rHr =>
    show (analyzeECGStep o r1 r2 r3 rHr s).model = s.model
    unfold analyzeECGStep
    split
    · rfl
    · cases o <;> rfl

/-- C8: the model is set once, by the single loadModel run at mount, and
no later operation (image uploads, successful analyses with their
forward passes, failed analyses) ever changes it. -/
theorem session_model_immutable (load : Except Unit ModelWeights) (events : List UIEvent) :
    (session load events).model = (loadModelStep load initState).model := by
  unfold session
  generalize loadModelStep load initState = s
  induction events generalizing s with
  | nil => rfl
  | cons e rest ih =>
    rw [List.foldl_cons]
    rw [ih (uiStep e s)]
    exact uiStep_model e s

/-- C6 amended: when inference fails with a preview and model present,
the user is alerted, the error is logged, loading is cleared so a new
attempt is accepted, and the model and preview are kept; but the
prediction state is left unchanged rather than reset to no-result, so a
previously displayed result stays on screen. -/
theorem analyze_fail_behavior (s : UIState) (r1 r2 r3 rHr : ℚ)
    (himg : s.imagePreview.isNone = false) (hmod : s.model.isNone = false) :
    (analyzeECGStep .fail r1 r2 r3 rHr s).alerts = s.alerts + 1 ∧
    (analyzeECGStep .fail r1 r2 r3 rHr s).consoleErrors = s.consoleErrors + 1 ∧
    (analyzeECGStep .fail r1 r2 r3 rHr s).loading = false ∧
    (analyzeECGStep .fail r1 r2 r3 rHr s).model = s.model ∧
    (analyzeECGStep .fail r1 r2 r3 rHr s).imagePreview = s.imagePreview ∧
    (analyzeECGStep .fail r1 r2 r3 rHr s).prediction = s.prediction := by
  unfold analyzeECGStep
  rw [himg, hmod]
  simp

/-- Witness for the amended C6 at a concrete ready state. -/
theorem analyze_fail_behavior_witness :
    (analyzeECGStep .fail 0 0 0 0
      { model := some zeroWeights
      , imagePreview := some zeroEcgImage
      , prediction := none
      , loading := false
      , modelLoading := false
      , alerts := 0
      , consoleErrors := 0 }).alerts = 0 + 1 ∧
    (analyzeECGStep .fail 0 0 0 0
      { model := some zeroWeights
      , imagePreview := some zeroEcgImage
      , prediction := none
      , loading := false
      , modelLoading := false
      , alerts := 0
      , consoleErrors := 0 }).loading = false := by
  have h := analyze_fail_behavior
    { model := some zeroWeights
    , imagePreview := some zeroEcgImage
    , prediction := none
    , loading := false
    , modelLoading := false
    , alerts := 0
    , consoleErrors := 0 } 0 0 0 0 rfl rfl
  exact ⟨h.1, h.2.2.1⟩

/-- C6 counterexample: after a successful analysis has stored a result,
a failing analysis leaves that stale result displayed instead of
resetting the user-visible state to no-result, refuting the claim that
every piece of user-visible state is reset on failure. -/
theorem analyze_fail_keeps_stale_prediction :
    (analyzeECGStep .fail 0 0 0 0
      (analyzeECGStep (.ok (1 / 4) (3 / 4)) 0 0 0 0
        (handleImageUploadStep (some zeroEcgImage)
          (loadModelStep (.ok zeroWeights) initState)))).prediction ≠ none := by
  have h : (analyzeECGStep .fail 0 0 0 0
      (analyzeECGStep (.ok (1 / 4) (3 / 4)) 0 0 0 0
        (handleImageUploadStep (some zeroEcgImage)
          (loadModelStep (.ok zeroWeights) initState)))).prediction =
      some (mkResult (1 / 4) (3 / 4) (mkFeatures 0 0 0 0)) := rfl
  rw [h]
  exact Option.some_ne_none _

/-- C7 amended: when model construction fails, the error is logged to
the console only, modelLoading is cleared, the model is left absent, no
user-facing notification is produced, and the app keeps running; while
the model is absent every analysis request returns without doing
anything. -/
theorem loadModel_error_behavior (s : UIState) :
    ((loadModelStep (.error ()) s).model = s.model ∧
     (loadModelStep (.error ()) s).modelLoading = false ∧
     (loadModelStep (.error ()) s).alerts = s.alerts ∧
     (loadModelStep (.error ()) s).consoleErrors = s.consoleErrors + 1) ∧
    ∀ (o : InferenceOutcome) (r1 r2 r3 rHr : ℚ) (s2 : UIState),
      s2.model.isNone = true → analyzeECGStep o r1 r2 r3 rHr s2 = s2 := by
  refine ⟨⟨rfl, rfl, rfl, rfl⟩, ?_⟩
  intro o r1 r2 r3 rHr s2 h
  unfold analyzeECGStep
  rw [h]
  simp

/-- Witness for the amended C7 at the initial state. -/
theorem loadModel_error_behavior_witness :
    (loadModelStep (.error ()) initState).model = none ∧
    analyzeECGStep .fail 0 0 0 0 (loadModelStep (.error ()) initState) =
      loadModelStep (.error ()) initState := by
  have h := loadModel_error_behavior initState
  exact ⟨h.1.1, h.2 .fail 0 0 0 0 (loadModelStep (.error ()) initState) rfl⟩

/-- C7 counterexample: after a failed model construction the app is
still in a running state with no model, no loading indicator, and no
user-facing error, and it still accepts an image upload, so the failure
is neither fatal nor surfaced as a construction error. -/
theorem loadModel_error_silently_degrades :
    (loadModelStep (.error ()) initState).model = none ∧
    (loadModelStep (.error ()) initState).modelLoading = false ∧
    (loadModelStep (.error ()) initState).alerts = 0 ∧
    (handleImageUploadStep (some zeroEcgImage)
      (loadModelStep (.error ()) initState)).imagePreview = some zeroEcgImage :=
  ⟨rfl, rfl, rfl, rfl⟩

/-- The backend tensor registry: a fresh-id counter and the list of live
tensor ids, the quantity reported by the backend memory counter. -/
structure TensorHeap where
  next : ℕ
  live : List ℕ

/-- Register a newly created backend tensor, returning its id. -/
def alloc (h : TensorHeap) : ℕ × TensorHeap :=
  (h.next, ⟨h.next + 1, h.next :: h.live⟩)

/-- Embedding of tensor.dispose: release the tensor with the given id. -/
def dispose (id : ℕ) (h : TensorHeap) : TensorHeap :=
  ⟨h.next, h.live.erase id⟩

/-- Allocation behaviour of preprocessImage: each method in the chain
creates a new backend tensor, and only the last one (the expandDims
result bound to imageTensor) is handed back to the caller; the four
intermediate tensors remain registered with no handle kept. -/
def preprocessAlloc (h : TensorHeap) : ℕ × TensorHeap :=
  let a1 := alloc h        -- tf.browser.fromPixels(img)
  let a2 := alloc a1.2     -- .resizeNearestNeighbor([224, 224])
  let a3 := alloc a2.2     -- .toFloat()
  let a4 := alloc a3.2     -- .div(255.0)
  let a5 := alloc a4.2     -- .expandDims(0)
  (a5.1, a5.2)

/-- Where one analyzeECG call can exit: normally, or with an exception
thrown by model.predict, or with an exception thrown by the data
readout of the prediction tensor. -/
inductive ExitPath
  | success
  | predictThrows
  | dataThrows

/-- Allocation behaviour of one analyzeECG call: preprocessing allocates
its chain, model.predict allocates the output tensor, and the two
dispose calls sit at the end of the try block, so they run only on the
success path; the catch and finally blocks dispose nothing. -/
def analyzeAlloc (p : ExitPath) (h : TensorHeap) : TensorHeap :=
  let pre := preprocessAlloc h
  let imageTensor := pre.1
  let h1 := pre.2
  match p with
  | .predictThrows => h1
  | .dataThrows => (alloc h1).2
  | .success =>
    let pr := alloc h1
    dispose pr.1 (dispose imageTensor pr.2)

/-- One successful analyzeECG call raises the live-tensor count by
exactly 4: the four intermediate preprocessing tensors leak even though
imageTensor and the prediction tensor are disposed. -/
lemma analyzeAlloc_success_length (h : TensorHeap) :
    (analyzeAlloc .success h).live.length = h.live.length + 4 := by
  show ((((h.next + 5) :: (h.next + 4) :: (h.next + 3) :: (h.next + 2) :: (h.next + 1) ::
      h.next :: h.live).erase (h.next + 4)).erase (h.next + 5)).length =
    h.live.length + 4
  have hm1 : h.next + 4 ∈ ((h.next + 5) :: (h.next + 4) :: (h.next + 3) :: (h.next + 2) ::
      (h.next + 1) :: h.next :: h.live) := by simp
  have hm2 : h.next + 5 ∈ (((h.next + 5) :: (h.next + 4) :: (h.next + 3) :: (h.next + 2) ::
      (h.next + 1) :: h.next :: h.live).erase (h.next + 4)) := by
    rw [List.mem_erase_of_ne (by omega)]
    simp
  rw [List.length_erase_of_mem hm2, List.length_erase_of_mem hm1]
  simp only [List.length_cons]
  omega

/-- C5 amended: on the success path only imageTensor and the prediction
tensor are disposed, so each successful call leaks the four intermediate
preprocessing tensors and N sequential successful calls leave the
live-tensor count 4N above the baseline; on the failure exit paths
nothing is disposed, leaving 5 or 6 extra live tensors for a single
call. -/
theorem analyzeECG_tensor_lifecycle (h : TensorHeap) (n : ℕ) :
    ((analyzeAlloc .success)^[n] h).live.length = h.live.length + 4 * n ∧
    (analyzeAlloc .predictThrows h).live.length = h.live.length + 5 ∧
    (analyzeAlloc .dataThrows h).live.length = h.live.length + 6 := by
  refine ⟨?_, ?_, ?_⟩
  · induction n with
    | zero => simp
    | succ k ih =>
      rw [Function.iterate_succ_apply', analyzeAlloc_success_length]
      omega
  · show ((h.next + 4) :: (h.next + 3) :: (h.next + 2) :: (h.next + 1) :: h.next ::
        h.live).length = h.live.length + 5
    simp only [List.length_cons]
  · show ((h.next + 5) :: (h.next + 4) :: (h.next + 3) :: (h.next + 2) :: (h.next + 1) ::
        h.next :: h.live).length = h.live.length + 6
    simp only [List.length_cons]

/-- C5 counterexample: starting from an empty registry, a single
successful analyzeECG call leaves the live-tensor count at 4 instead of
returning it to the pre-call baseline of 0, refuting the claim that
both tensors are released on every exit path and that the count returns
to baseline. -/
theorem analyzeECG_leaks_tensors :
    (analyzeAlloc .success ⟨0, []⟩).live.length ≠ (⟨0, []⟩ : TensorHeap).live.length := by
  decide
